import Mathlib

/-!
Verification of the schema-aware data-access core of `bolt_manager.py`
(repository meistro57/Dumpster): a shallow embedding of the query builder,
pagination, transactional create/clone flows, unit conversion, integrity
audits and the auto-length rule generator, together with theorems settling
the specification's claims about them.

Conventions of the embedding:
* SQL values are modelled by `Val` (integers, rationals, strings, NULL).
* A database row is an association list from column name to value; a SELECT *
  result pairs each value with its column name in ordinal position.
* Machine floats of the source are modelled by `ℚ`.
* The pyodbc transaction / cursor machinery is modelled by explicit state
  passing: a transaction body either returns the new database state or an
  error, and `runTransaction` commits or rolls back accordingly, mirroring
  `DatabaseTransaction.__exit__`.
-/

/-- A SQL value as handled by the tool: integer, numeric (float), text or NULL. -/
inductive Val where
  | i (n : Int)
  | q (x : ℚ)
  | s (t : String)
  | null
  deriving DecidableEq, Repr

/-- A database row: column name / value pairs in ordinal column order. -/
abbrev Row := List (String × Val)

/-- `UNIT_CONVERT` from the source: the fixed set of dimensional columns whose
values participate in mm→inch display conversion. -/
def UNIT_CONVERT : List String :=
  ["Diameter", "Length", "HeadHeight", "Width", "Height", "Thickness",
   "HeadDiameter", "NutThickness", "WasherThickness", "WasherOuterDia",
   "GripMin", "GripMax"]

/-- `MM_TO_INCH = 25.4` from the source. -/
def MM_TO_INCH : ℚ := 254 / 10

/-- `FASTENER_TABLES` from the source: the allow-list of known fastener tables
(a Python set; order is irrelevant, membership is what matters). -/
def FASTENER_TABLES : List String :=
  ["BoltsCoating", "BoltsDiameters", "Screw", "SetBolts", "SetBoltsType",
   "SetOfBolts", "Standard", "BoltsDistances", "BoltDefinition", "TappingHole",
   "Sources", "Sets", "SetNutsBolts", "ScrewNew", "Authors", "StrengthClass",
   "AutoLength", "StandardNuts"]

/-- One entry of `BOLT_SCHEMA`: table name, foreign keys (local column ↦
referenced table), required fields, description. -/
structure TableSchema where
  name : String
  foreignKeys : List (String × String)
  requiredFields : List String
  description : String
  deriving DecidableEq, Repr

/-- `BOLT_SCHEMA` from the source: the static schema catalog. -/
def BOLT_SCHEMA : List TableSchema :=
  [{ name := "BoltDefinition",
     foreignKeys := [("StandardId", "Standard"), ("StrengthClassId", "StrengthClass"),
                     ("AuthorId", "Authors")],
     requiredFields := ["Name", "StandardId", "Diameter", "StrengthClassId", "AuthorId"],
     description := "Base bolt type definitions" },
   { name := "SetBolts",
     foreignKeys := [("BoltDefId", "BoltDefinition")],
     requiredFields := ["BoltDefId", "Length", "Weight", "PartName"],
     description := "Individual bolt lengths" },
   { name := "SetOfBolts",
     foreignKeys := [("BoltDefId", "BoltDefinition"), ("SetId", "Sets")],
     requiredFields := ["BoltDefId", "SetId"],
     description := "Links bolts to assembly sets" },
   { name := "SetNutsBolts",
     foreignKeys := [("StandardId", "Standard"), ("SetId", "Sets")],
     requiredFields := ["StandardId", "SetId", "Diameter", "NutThickness", "WasherThickness"],
     description := "Nut and washer dimensions" },
   { name := "AutoLength",
     foreignKeys := [("BoltDefId", "BoltDefinition")],
     requiredFields := ["BoltDefId", "GripMin", "GripMax", "Length"],
     description := "Automatic length selection rules" }]

/-- All foreign-key relationships declared in `BOLT_SCHEMA`, as
(dependent table, local column, referenced table) triples. -/
def declaredFKRels : List (String × String × String) :=
  BOLT_SCHEMA.flatMap (fun ts => ts.foreignKeys.map (fun fk => (ts.name, fk.1, fk.2)))

/-- One advanced-search condition, as produced by
`AdvancedSearchDialog.get_conditions`: column, operator string, value. -/
structure AdvCond where
  column : String
  op : String
  value : String
  deriving DecidableEq, Repr

/-- The filter state of the browser that `build_where_clause` reads:
current table, advanced conditions, raw global filter-box text, and
per-column filters. -/
structure BrowseState where
  current_table : String
  advanced_conditions : List AdvCond
  filter_text : String
  column_filters : List (String × String)
  deriving DecidableEq, Repr

/-- Python's `str.strip()`: remove leading and trailing whitespace. -/
def pyStrip (s : String) : String :=
  ⟨((s.data.dropWhile Char.isWhitespace).reverse.dropWhile Char.isWhitespace).reverse⟩

/-- One step budgeted scan for `replaceAllL`: the fuel starts at the list
length and at least one character is consumed per step, so it never runs out
before the list does. -/
def replaceAllGo (needle repl : List Char) : Nat → List Char → List Char
  | 0, rest => rest
  | _ + 1, [] => []
  | fuel + 1, c :: t =>
    if needle ≠ [] ∧ needle.isPrefixOf (c :: t) then
      repl ++ replaceAllGo needle repl fuel ((c :: t).drop needle.length)
    else
      c :: replaceAllGo needle repl fuel t

/-- Python's `str.replace(needle, repl)` on character lists: replace every
(leftmost, non-overlapping) occurrence of a non-empty `needle`. -/
def replaceAllL (needle repl l : List Char) : List Char :=
  replaceAllGo needle repl l.length l

/-- Python's `str.replace` at the `String` level. -/
def pyReplace (s needle repl : String) : String :=
  ⟨replaceAllL needle.data repl.data s.data⟩

/-- The SQL fragment `CAST([col] AS NVARCHAR(MAX)) LIKE ?` built by the source. -/
def castLikeFrag (col : String) : String :=
  "CAST([" ++ col ++ "] AS NVARCHAR(MAX)) LIKE ?"

/-- The SQL fragment `CAST([col] AS NVARCHAR(MAX)) = ?` built by the source. -/
def castEqFrag (col : String) : String :=
  "CAST([" ++ col ++ "] AS NVARCHAR(MAX)) = ?"

/-- The SQL fragment `CAST([col] AS NVARCHAR(MAX)) NOT LIKE ?` built by the source. -/
def castNotLikeFrag (col : String) : String :=
  "CAST([" ++ col ++ "] AS NVARCHAR(MAX)) NOT LIKE ?"

/-- The (condition fragments, parameters) contributed by one advanced-search
condition, mirroring the `if/elif` chain of `build_where_clause`; an
unrecognised operator contributes nothing. -/
def advCondFrags (c : AdvCond) : List String × List String :=
  if c.op = "contains" then ([castLikeFrag c.column], ["%" ++ c.value ++ "%"])
  else if c.op = "equals" then ([castEqFrag c.column], [c.value])
  else if c.op = "starts with" then ([castLikeFrag c.column], [c.value ++ "%"])
  else if c.op = "ends with" then ([castLikeFrag c.column], ["%" ++ c.value])
  else if c.op = "not contains" then ([castNotLikeFrag c.column], ["%" ++ c.value ++ "%"])
  else ([], [])

/-- The single OR-group condition built from the global keyword: one
`CAST(... ) LIKE ?` per known column, joined by ` OR `, in parentheses. -/
def keywordGroupFrag (all_columns : List String) : String :=
  "(" ++ String.intercalate " OR " (all_columns.map castLikeFrag) ++ ")"

/-- `build_where_clause` from the source, as a pure function of the filter
state and of the live column list (the result of the INFORMATION_SCHEMA
query, passed in explicitly).  Returns the WHERE-clause text and the ordered
parameter list, or an error when the current table is not in the allow-list
(the `raise ValueError` path, which fires before the column query runs). -/
def build_where_clause (st : BrowseState) (all_columns : List String) :
    Except String (String × List String) :=
  if st.current_table ∈ FASTENER_TABLES then
    -- advanced conditions take priority; the global keyword only applies
    -- when there are none ("only if no advanced conditions")
    let advanced : List String × List String :=
      st.advanced_conditions.foldl
        (fun acc c => (acc.1 ++ (advCondFrags c).1, acc.2 ++ (advCondFrags c).2))
        ([], [])
    let keyword := pyStrip st.filter_text
    let global : List String × List String :=
      if st.advanced_conditions ≠ [] then advanced
      else if keyword ≠ "" then
        ([keywordGroupFrag all_columns], all_columns.map (fun _ => "%" ++ keyword ++ "%"))
      else ([], [])
    let withCols : List String × List String :=
      st.column_filters.foldl
        (fun acc cf =>
          if cf.2 ≠ "" ∧ cf.2 ≠ "All" then
            (acc.1 ++ [castLikeFrag cf.1], acc.2 ++ ["%" ++ cf.2 ++ "%"])
          else acc)
        global
    let where_clause :=
      if withCols.1 ≠ [] then String.intercalate " AND " withCols.1 else ""
    .ok (where_clause, withCols.2)
  else
    .error ("Invalid table name: " ++ st.current_table)

/-- `load_table_data`'s table-selection guard: strip the list-item text,
remove the favourite-star prefix, and accept the table only when it is in
`FASTENER_TABLES`; otherwise the method warns and returns without querying. -/
def load_table_data_guard (item_text : String) : Option String :=
  let table_name := pyReplace (pyStrip item_text) "⭐ " ""
  if table_name ∈ FASTENER_TABLES then some table_name else none

/-- `rows_per_page = 25` from the source. -/
def rows_per_page : Nat := 25

/-- The page of rows the `OFFSET ? ROWS FETCH NEXT ? ROWS ONLY` query returns
from the filtered, ordered result set `matching`, at offset
`page * rows_per_page`. -/
def pageRows (matching : List Row) (page : Nat) : List Row :=
  (matching.drop (page * rows_per_page)).take rows_per_page

/-- The pagination view `populate_table` derives from a page fetch: the shown
rows, the 1-based start/end row numbers of the status label, and the enabled
state of the previous/next buttons. -/
structure PageView where
  rows : List Row
  startRow : Nat
  endRow : Nat
  prevEnabled : Bool
  nextEnabled : Bool
  deriving DecidableEq, Repr

/-- The tail of `populate_table`: given the filtered result set and the page
index, compute the rows shown and the pagination state exactly as the source
does (`end_row = min(offset + len(rows), total)`, `prev` enabled iff
`page > 0`, `next` enabled iff `end_row < total`). -/
def populate_table_view (matching : List Row) (page : Nat) : PageView :=
  let offset := page * rows_per_page
  let rows := pageRows matching page
  let total := matching.length
  let startRow := if rows ≠ [] then offset + 1 else 0
  let endRow := min (offset + rows.length) total
  { rows := rows
    startRow := startRow
    endRow := endRow
    prevEnabled := decide (page > 0)
    nextEnabled := decide (endRow < total) }

/-- `change_page` from the source: move by `direction` (±1) only when the
target page lies in `[0, max_page]`, where
`max_page = (total - 1) // rows_per_page` for a non-empty result set and `0`
otherwise; otherwise keep the current page. -/
def change_page (page : Nat) (total : Nat) (direction : Int) : Nat :=
  let new_page : Int := (page : Int) + direction
  let max_page : Int := if total > 0 then ((total : Int) - 1) / rows_per_page else 0
  if 0 ≤ new_page ∧ new_page ≤ max_page then new_page.toNat else page

/-- SQL `LIKE` pattern matching over character lists, modelling the database
engine's `LIKE` operator used by the clauses the tool builds: `%` matches any
(possibly empty) sequence, `_` matches one character, anything else matches
itself. -/
def likeMatch : List Char → List Char → Bool
  | [], hay => hay.isEmpty
  | p :: ps, hay =>
    if p = '%' then
      likeMatch ps hay ||
        (match hay with
         | [] => false
         | _ :: t => likeMatch (p :: ps) t)
    else
      match hay with
      | [] => false
      | c :: t => if p = '_' then likeMatch ps t else (p == c && likeMatch ps t)
termination_by p h => (p.length, h.length)

/-- `needle` occurs as a contiguous substring of `hay`. -/
def containsSub (needle : List Char) : List Char → Bool
  | [] => needle.isEmpty
  | c :: t => needle.isPrefixOf (c :: t) || containsSub needle t

/-- A character list is wildcard-free when it contains neither `LIKE`
metacharacter. -/
def wildcardFree (k : List Char) : Prop := '%' ∉ k ∧ '_' ∉ k

instance (k : List Char) : Decidable (wildcardFree k) := by
  unfold wildcardFree; infer_instance

/-- The database-side meaning of the keyword OR-group: the row (given as a
text valuation of its columns, the result of the `CAST(... AS NVARCHAR)`)
satisfies the group iff some known column's text matches the `%keyword%`
parameter bound to its `LIKE` placeholder. -/
def evalKeywordGroup (all_columns : List String) (rowVal : String → String)
    (keyword : String) : Bool :=
  all_columns.any (fun c =>
    likeMatch ('%' :: (keyword.toList ++ ['%'])) (rowVal c).toList)

/-- A value is numeric when it is an int or a float
(`isinstance(val, (float, int))`). -/
def isNumericVal : Val → Bool
  | .i _ => true
  | .q _ => true
  | _ => false

/-- Numeric payload of a `Val` (only used under `isNumericVal`). -/
def valToRat : Val → ℚ
  | .i n => (n : ℚ)
  | .q x => x
  | _ => 0

/-- Rounding to 3 decimal places, modelling Python's `round(x, 3)`; Python
rounds half to even, which differs from this model only at exact
half-thousandth ties, exercised by no claim. -/
def round3 (x : ℚ) : ℚ := (round (x * 1000) : ℤ) / 1000

/-- The per-cell display logic of `populate_table`: `None` renders as the
empty string; a numeric value in a `UNIT_CONVERT` column is divided by
`MM_TO_INCH` and rounded to 3 decimals when inch display is on; everything
else passes through.  (The final `str(...)` rendering of the widget text is
outside the model; values are compared at `Val` level.) -/
def displayCellPopulate (convert_to_inches : Bool) (columns : List String)
    (j : Nat) (val : Val) : Val :=
  match val with
  | .null => .s ""
  | v =>
    if convert_to_inches ∧ j < columns.length ∧ columns.getD j "" ∈ UNIT_CONVERT
        ∧ isNumericVal v then
      .q (round3 (valToRat v / MM_TO_INCH))
    else v

/-- The per-cell conversion logic of `export_to_csv`, written in the source as
a separate but syntactically identical condition chain. -/
def displayCellExport (convert_to_inches : Bool) (columns : List String)
    (j : Nat) (val : Val) : Val :=
  match val with
  | .null => .s ""
  | v =>
    if convert_to_inches ∧ j < columns.length ∧ columns.getD j "" ∈ UNIT_CONVERT
        ∧ isNumericVal v then
      .q (round3 (valToRat v / MM_TO_INCH))
    else v

/-- The database state touched by the write and audit paths: one list of rows
per table the source reads or writes. -/
structure DB where
  boltDefinition : List Row
  setBolts : List Row
  setOfBolts : List Row
  autoLength : List Row
  sets : List Row
  standard : List Row
  strengthClass : List Row
  authors : List Row
  deriving DecidableEq, Repr

/-- `DatabaseTransaction.__exit__`: commit the body's resulting state when it
finished without an exception, otherwise roll everything back to the state at
entry. -/
def runTransaction (db : DB) (body : Except String DB) : DB :=
  match body with
  | .ok db2 => db2
  | .error _ => db

/-- `BoltData` from the source (the dataclass the creation wizard fills):
lengths are (length, weight, part name) triples, assembly sets are `Sets`
ids. -/
structure BoltData where
  name : String
  standard_id : Val
  diameter : Val
  strength_class_id : Val
  author_id : Val
  head_diameter : Val := .null
  head_height : Val := .null
  thread_type : String := "metric_coarse"
  lengths : List (Val × Val × String) := []
  assembly_sets : List Val := []
  deriving DecidableEq, Repr

/-- The `BoltDefinition` row stored by the root INSERT of the creation flow
(`INSERT INTO BoltDefinition (...) OUTPUT INSERTED.ID VALUES (...)`), with the
generated identifier `newId`. -/
def rootInsertRow (newId : Val) (b : BoltData) : Row :=
  [("ID", newId), ("Name", .s b.name), ("StandardId", b.standard_id),
   ("Diameter", b.diameter), ("StrengthClassId", b.strength_class_id),
   ("AuthorId", b.author_id), ("HeadDiameter", b.head_diameter),
   ("HeadHeight", b.head_height), ("ThreadType", .s b.thread_type)]

/-- The `SetBolts` row inserted for one length entry of the creation flow. -/
def setBoltsInsertRow (newId : Val) (e : Val × Val × String) : Row :=
  [("BoltDefId", newId), ("Length", e.1), ("Weight", e.2.1), ("PartName", .s e.2.2)]

/-- The `SetOfBolts` row inserted for one assembly-set id of the creation
flow. -/
def setOfBoltsInsertRow (newId : Val) (setId : Val) : Row :=
  [("BoltDefId", newId), ("SetId", setId)]

/-- Run a sequence of single-row INSERT statements, one per item, starting at
statement index `idx`; the statement whose index equals `failAt` raises
(modelling an injected failure of that `cursor.execute`), aborting the rest.
On success, return the inserted rows and the next statement index. -/
def runInserts (mk : α → Row) (items : List α) (idx : Nat) (failAt : Option Nat) :
    Except String (List Row × Nat) :=
  match items with
  | [] => .ok ([], idx)
  | a :: as =>
    if failAt = some idx then .error "insert failed"
    else
      match runInserts mk as (idx + 1) failAt with
      | .ok (rs, i) => .ok (mk a :: rs, i)
      | .error e => .error e

/-- The transaction body of `show_bolt_creation_wizard`: insert the root
`BoltDefinition` row (statement 0, generating `newId`), then one `SetBolts`
row per length, then one `SetOfBolts` row per assembly set, in order;
`failAt` injects a failure at the statement with that index. -/
def createBody (db : DB) (b : BoltData) (newId : Val) (failAt : Option Nat) :
    Except String DB :=
  if failAt = some 0 then .error "insert failed"
  else
    match runInserts (setBoltsInsertRow newId) b.lengths 1 failAt with
    | .error e => .error e
    | .ok (sbRows, idx2) =>
      match runInserts (setOfBoltsInsertRow newId) b.assembly_sets idx2 failAt with
      | .error e => .error e
      | .ok (sobRows, _) =>
        .ok { db with
              boltDefinition := db.boltDefinition ++ [rootInsertRow newId b]
              setBolts := db.setBolts ++ sbRows
              setOfBolts := db.setOfBolts ++ sobRows }

/-- `createEntity`: the creation flow's transaction, committed on success and
rolled back on any failure. -/
def createEntity (db : DB) (b : BoltData) (newId : Val) (failAt : Option Nat) : DB :=
  runTransaction db (createBody db b newId failAt)

/-- Number of INSERT statements the creation flow issues. -/
def createStmtCount (b : BoltData) : Nat :=
  1 + b.lengths.length + b.assembly_sets.length

/-- The `SetBolts` row stored for one source row by the clone's
`INSERT INTO SetBolts (BoltDefId, Length, Weight, PartName)
SELECT ?, Length, Weight, PartName ...`: the new foreign key plus the three
named columns of the source row — and nothing else. -/
def cloneSetBoltsRow (newId : Val) (r : Row) : Row :=
  [("BoltDefId", newId), ("Length", (List.lookup "Length" r).getD .null),
   ("Weight", (List.lookup "Weight" r).getD .null),
   ("PartName", (List.lookup "PartName" r).getD .null)]

/-- The `SetOfBolts` row stored for one source row by the clone's
`INSERT INTO SetOfBolts (BoltDefId, SetId) SELECT ?, SetId ...`. -/
def cloneSetOfBoltsRow (newId : Val) (r : Row) : Row :=
  [("BoltDefId", newId), ("SetId", (List.lookup "SetId" r).getD .null)]

/-- The `AutoLength` row stored for one source row by the clone's
`INSERT INTO AutoLength (BoltDefId, GripMin, GripMax, Length)
SELECT ?, GripMin, GripMax, Length ...`. -/
def cloneAutoLengthRow (newId : Val) (r : Row) : Row :=
  [("BoltDefId", newId), ("GripMin", (List.lookup "GripMin" r).getD .null),
   ("GripMax", (List.lookup "GripMax" r).getD .null),
   ("Length", (List.lookup "Length" r).getD .null)]

/-- Rows of a dependent table referencing `source_bolt_id` through their
`BoltDefId` column (`WHERE BoltDefId = ?`). -/
def rowsReferencing (tbl : List Row) (source_bolt_id : Val) : List Row :=
  tbl.filter (fun r => decide (List.lookup "BoltDefId" r = some source_bolt_id))

/-- The transaction body of `perform_bolt_clone`: read the source root row
(`SELECT * ... WHERE ID = ?`, error when absent), enumerate the live columns
of `BoltDefinition` (passed in as `columns`, in ordinal position), insert a
new root row copying every column except `ID`, substituting `new_name` for
`Name` (the stored row carries the generated `newId`), then copy all
`SetBolts`, `SetOfBolts` and `AutoLength` rows referencing the source id,
re-keyed to `newId`, each through its fixed column list. -/
def cloneBody (db : DB) (columns : List String) (source_bolt_id : Val)
    (new_name : String) (newId : Val) : Except String DB :=
  match db.boltDefinition.find?
      (fun r => decide (List.lookup "ID" r = some source_bolt_id)) with
  | none => .error "Source bolt not found"
  | some source_data =>
    let newRoot : Row :=
      ("ID", newId) :: (columns.filter (fun c => c ≠ "ID")).map (fun c =>
        (c, if c = "Name" then .s new_name else (List.lookup c source_data).getD .null))
    .ok { db with
          boltDefinition := db.boltDefinition ++ [newRoot]
          setBolts := db.setBolts ++
            (rowsReferencing db.setBolts source_bolt_id).map (cloneSetBoltsRow newId)
          setOfBolts := db.setOfBolts ++
            (rowsReferencing db.setOfBolts source_bolt_id).map (cloneSetOfBoltsRow newId)
          autoLength := db.autoLength ++
            (rowsReferencing db.autoLength source_bolt_id).map (cloneAutoLengthRow newId) }

/-- `perform_bolt_clone`: the clone transaction, committed on success and
rolled back on any failure. -/
def perform_bolt_clone (db : DB) (columns : List String) (source_bolt_id : Val)
    (new_name : String) (newId : Val) : DB :=
  runTransaction db (cloneBody db columns source_bolt_id new_name newId)

/-- Follows the spec's words, for comparison with the source's dependent-row
copy: a structural copy of a dependent row keeps every column unchanged
except the foreign-key column, which is re-pointed at the new identifier
("must not assume any particular dependent-table schema beyond a foreign-key
column pointing at the primary table"). -/
def specStructuralCopyRow (fkCol : String) (newId : Val) (r : Row) : Row :=
  r.map (fun cv => if cv.1 = fkCol then (cv.1, newId) else cv)

/-- Number of SQL statements `perform_bolt_clone` issues: the source-row
SELECT always runs first; when the source exists, the column enumeration, the
root INSERT and the three dependent INSERT..SELECT statements follow. -/
def cloneIssuedStmts (db : DB) (source_bolt_id : Val) : Nat :=
  match db.boltDefinition.find?
      (fun r => decide (List.lookup "ID" r = some source_bolt_id)) with
  | none => 1
  | some _ => 6

/-- `clone_existing_bolt`'s only in-memory guard before calling
`perform_bolt_clone`: the dialog result must be accepted with a non-empty new
name (`if ok and new_name:`). -/
def clone_name_guard (ok : Bool) (new_name : String) : Bool :=
  ok && new_name ≠ ""

/-- The form inputs `create_bolt` reads from the wizard widgets. -/
structure WizardInputs where
  name_text : String
  standard_data : Val
  diameter_value : Val
  strength_data : Val
  author_data : Val
  head_diameter_value : Val
  head_height_value : Val
  lengths_rows : List (Val × Val × String)
  selected_sets : List Val
  deriving DecidableEq, Repr

/-- `create_bolt` from the wizard: validate in memory — non-empty name, at
least one length row, at least one selected assembly set — and only then
assemble the `BoltData` and accept the dialog; any violation warns and
returns `none` (the dialog is not accepted, so the caller issues no SQL). -/
def create_bolt (w : WizardInputs) : Option BoltData :=
  if w.name_text = "" then none
  else if w.lengths_rows.length = 0 then none
  else if w.selected_sets.length = 0 then none
  else
    some { name := w.name_text
           standard_id := w.standard_data
           diameter := w.diameter_value
           strength_class_id := w.strength_data
           author_id := w.author_data
           head_diameter := w.head_diameter_value
           head_height := w.head_height_value
           lengths := w.lengths_rows
           assembly_sets := w.selected_sets }

/-- `show_bolt_creation_wizard` end to end: when the wizard was not accepted
(validation failed) no SQL statement of the creation flow executes and the
database is untouched; when it was accepted, the creation transaction runs
and issues its full statement count.  Returns the final state and the number
of statements issued. -/
def createFlow (w : WizardInputs) (db : DB) (newId : Val) : DB × Nat :=
  match create_bolt w with
  | none => (db, 0)
  | some b => (createEntity db b newId none, createStmtCount b)

/-- Map the table names appearing in the audit queries to the database state. -/
def getTable (db : DB) : String → List Row
  | "BoltDefinition" => db.boltDefinition
  | "SetBolts" => db.setBolts
  | "SetOfBolts" => db.setOfBolts
  | "AutoLength" => db.autoLength
  | "Sets" => db.sets
  | "Standard" => db.standard
  | "StrengthClass" => db.strengthClass
  | "Authors" => db.authors
  | _ => []

/-- `SELECT ID FROM t`: the identifiers of a table's rows. -/
def tableIds (rows : List Row) : List Val :=
  rows.filterMap (fun r => List.lookup "ID" r)

/-- `SELECT COUNT(*) FROM dep WHERE fkCol NOT IN (SELECT ID FROM ref)`:
dependent rows whose foreign-key value matches no identifier of the
referenced table.  A NULL foreign key is not counted (SQL `NOT IN` is not
true for NULL). -/
def orphanCount (db : DB) (dep fkCol ref : String) : Nat :=
  ((getTable db dep).filter (fun r =>
    match List.lookup fkCol r with
    | some Val.null => false
    | some v => decide (v ∉ tableIds (getTable db ref))
    | none => false)).length

/-- The six checks hard-coded in `check_orphaned_records`, as
(description, dependent table, foreign-key column, referenced table). -/
def orphanChecks : List (String × String × String × String) :=
  [("SetBolts without BoltDefinition", "SetBolts", "BoltDefId", "BoltDefinition"),
   ("SetOfBolts without BoltDefinition", "SetOfBolts", "BoltDefId", "BoltDefinition"),
   ("SetOfBolts without valid Set", "SetOfBolts", "SetId", "Sets"),
   ("AutoLength without BoltDefinition", "AutoLength", "BoltDefId", "BoltDefinition"),
   ("BoltDefinition without Standard", "BoltDefinition", "StandardId", "Standard"),
   ("BoltDefinition without StrengthClass", "BoltDefinition", "StrengthClassId", "StrengthClass")]

/-- `check_orphaned_records`: run the six hard-coded count queries in order,
collecting one (description, count) finding per check and accumulating
`total_orphans += count`. -/
def check_orphaned_records (db : DB) : List (String × Nat) × Nat :=
  orphanChecks.foldl
    (fun acc chk =>
      let c := orphanCount db chk.2.1 chk.2.2.1 chk.2.2.2
      (acc.1 ++ [(chk.1, c)], acc.2 + c))
    ([], 0)

/-- An auto-length rule row as shown in the wizard table:
(min grip, max grip, bolt length). -/
abbrev ALRule := ℚ × ℚ × ℚ

/-- The loop body of `generate_auto_length_rules`.  The rule table was cleared
just before the loop, so `rules` starts empty; `prev_max_grip` models the
loop-local Python variable, `none` while it is still unassigned.  Reading it
unassigned (the `UnboundLocalError` the spec worries about) yields `none` for
the whole run; each inserted rule assigns it. -/
def genLoop (nut_height : ℚ) :
    List ℚ → List ALRule → Option ℚ → Option (List ALRule)
  | [], rules, _ => some rules
  | l :: ls, rules, prev_max_grip =>
    let max_grip := l - nut_height - 3
    let min_grip? : Option ℚ :=
      if rules.length = 0 then some 0
      else prev_max_grip.map (fun p => p + 1 / 10)
    match min_grip? with
    | none => none
    | some min_grip =>
      if min_grip < max_grip then
        genLoop nut_height ls (rules ++ [(min_grip, max_grip, l)]) (some max_grip)
      else
        genLoop nut_height ls rules prev_max_grip

/-- `generate_auto_length_rules`: sort the length list, take the nut height
from the input (falling back to 13.0 when it is 0, Python's
`value() or 13.0`), clear the rule table and run the generation loop with
`prev_max_grip` unassigned.  (The source returns early, generating nothing,
when there are no lengths; the claims only concern non-empty inputs.)
`none` models the run aborting with an `UnboundLocalError`. -/
def generate_auto_length_rules (lengths0 : List ℚ) (nut_input : ℚ) :
    Option (List ALRule) :=
  let lengths := lengths0.mergeSort (fun a b => decide (a ≤ b))
  let nut_height := if nut_input = 0 then 13 else nut_input
  genLoop nut_height lengths [] none

/-- A filter state with non-empty advanced conditions, used to instantiate the
mutual-exclusivity theorem. -/
def advDemoState : BrowseState :=
  { current_table := "Screw"
    advanced_conditions := [{ column := "Name", op := "contains", value := "M1" }]
    filter_text := "ignored"
    column_filters := [] }

/-- **C3**: for every filter state whose advanced conditions are non-empty,
the clause built by `build_where_clause` contains no predicate derived from
the global keyword — the result is unchanged under any replacement of the
filter-box text, even when a keyword is set. -/
theorem advanced_suppresses_global_keyword
    (st : BrowseState) (all_columns : List String) (k1 k2 : String)
    (h : st.advanced_conditions ≠ []) :
    build_where_clause { st with filter_text := k1 } all_columns =
      build_where_clause { st with filter_text := k2 } all_columns := by
  simp [build_where_clause, h]

/-- Witness for C3: with one advanced condition present, the clause is the
same for two different keywords. -/
theorem advanced_suppresses_global_keyword_witness :
    build_where_clause { advDemoState with filter_text := "M16" } ["Name"] =
      build_where_clause { advDemoState with filter_text := "totally different" } ["Name"] :=
  advanced_suppresses_global_keyword advDemoState ["Name"] "M16" "totally different"
    (by simp [advDemoState])

/-- **C6**: a table name outside the `FASTENER_TABLES` allow-list is rejected
before any query is built against it: `load_table_data` refuses to select it,
and `build_where_clause` raises instead of producing SQL text — its error
result does not depend on the live column list, so no query string is ever
interpolated from a name outside the allow-list. -/
theorem allowlist_rejects_unknown_tables :
    (∀ item_text : String,
        pyReplace (pyStrip item_text) "⭐ " "" ∉ FASTENER_TABLES →
        load_table_data_guard item_text = none) ∧
    (∀ (st : BrowseState) (cols : List String),
        st.current_table ∉ FASTENER_TABLES →
        build_where_clause st cols =
          .error ("Invalid table name: " ++ st.current_table)) ∧
    (∀ (st : BrowseState) (cols1 cols2 : List String),
        st.current_table ∉ FASTENER_TABLES →
        build_where_clause st cols1 = build_where_clause st cols2) := by
  refine ⟨?_, ?_, ?_⟩
  · intro item_text h
    simp only [load_table_data_guard, if_neg h]
  · intro st cols h
    simp only [build_where_clause, if_neg h]
  · intro st cols1 cols2 h
    simp only [build_where_clause, if_neg h]

/-- Witness for C6: the table name `Users` is outside the allow-list and is
rejected by both paths. -/
theorem allowlist_rejects_unknown_tables_witness :
    load_table_data_guard "  Users " = none ∧
    build_where_clause
        { current_table := "Users", advanced_conditions := [],
          filter_text := "x", column_filters := [] } ["Name"] =
      .error "Invalid table name: Users" := by
  refine ⟨allowlist_rejects_unknown_tables.1 "  Users " (by decide), ?_⟩
  exact allowlist_rejects_unknown_tables.2.1
    { current_table := "Users", advanced_conditions := [],
      filter_text := "x", column_filters := [] } ["Name"] (by decide)

/-- A lone `%` pattern matches any text. -/
lemma likeMatch_pct_any (v : List Char) : likeMatch ['%'] v = true := by
  induction v with
  | nil => simp [likeMatch]
  | cons c t ih => simp [likeMatch, ih]

/-- A leading `%` matches iff the rest of the pattern matches some suffix. -/
lemma likeMatch_pct_iff (q v : List Char) :
    likeMatch ('%' :: q) v = true ↔ ∃ n, likeMatch q (v.drop n) = true := by
  induction v with
  | nil =>
    simp only [likeMatch, List.drop_nil]
    constructor
    · intro h; exact ⟨0, by simpa using h⟩
    · rintro ⟨n, h⟩; simpa using h
  | cons c t ih =>
    have hstep : likeMatch ('%' :: q) (c :: t) =
        (likeMatch q (c :: t) || likeMatch ('%' :: q) t) := by
      simp [likeMatch]
    rw [hstep, Bool.or_eq_true, ih]
    constructor
    · rintro (h | ⟨n, h⟩)
      · exact ⟨0, by simpa using h⟩
      · exact ⟨n + 1, by simpa using h⟩
    · rintro ⟨n, h⟩
      cases n with
      | zero => exact Or.inl (by simpa using h)
      | succ m => exact Or.inr ⟨m, by simpa using h⟩

/-- A wildcard-free pattern followed by `%` matches exactly the texts it is a
prefix of. -/
lemma likeMatch_append_pct (k : List Char) (hk : wildcardFree k) (v : List Char) :
    likeMatch (k ++ ['%']) v = k.isPrefixOf v := by
  induction k generalizing v with
  | nil => simpa [List.isPrefixOf] using likeMatch_pct_any v
  | cons a as ih =>
    obtain ⟨h1, h2⟩ := hk
    have ha1 : a ≠ '%' := fun h => h1 (h ▸ List.mem_cons_self a as)
    have ha2 : a ≠ '_' := fun h => h2 (h ▸ List.mem_cons_self a as)
    have hk' : wildcardFree as :=
      ⟨fun h => h1 (List.mem_cons_of_mem a h), fun h => h2 (List.mem_cons_of_mem a h)⟩
    cases v with
    | nil => simp [likeMatch, ha1, List.isPrefixOf]
    | cons c t =>
      rw [List.cons_append, likeMatch]
      simp [ha1, ha2, ih hk' t, List.isPrefixOf]

/-- `containsSub` holds exactly when the needle is a prefix of some suffix. -/
lemma containsSub_iff (k v : List Char) :
    containsSub k v = true ↔ ∃ n, k.isPrefixOf (v.drop n) = true := by
  induction v with
  | nil =>
    simp only [containsSub, List.drop_nil]
    cases k with
    | nil => simp [List.isPrefixOf]
    | cons a as => simp [List.isPrefixOf]
  | cons c t ih =>
    simp only [containsSub, Bool.or_eq_true, ih]
    constructor
    · rintro (h | ⟨n, h⟩)
      · exact ⟨0, by simpa using h⟩
      · exact ⟨n + 1, by simpa using h⟩
    · rintro ⟨n, h⟩
      cases n with
      | zero => exact Or.inl (by simpa using h)
      | succ m => exact Or.inr ⟨m, by simpa using h⟩

/-- The database-side meaning of a `%k%` parameter bound to a `LIKE`
placeholder, for a wildcard-free keyword `k`: the text matches iff it
contains `k` as a substring. -/
lemma likeMatch_wrapped_eq_containsSub (k : List Char) (hk : wildcardFree k)
    (v : List Char) :
    likeMatch ('%' :: (k ++ ['%'])) v = containsSub k v := by
  rw [Bool.eq_iff_iff, likeMatch_pct_iff, containsSub_iff]
  constructor
  · rintro ⟨n, hn⟩
    exact ⟨n, by rw [← likeMatch_append_pct k hk]; exact hn⟩
  · rintro ⟨n, hn⟩
    exact ⟨n, by rw [likeMatch_append_pct k hk]; exact hn⟩

/-- A filter state carrying only a global keyword. -/
def kwDemoState : BrowseState :=
  { current_table := "Screw"
    advanced_conditions := []
    filter_text := "  M16 "
    column_filters := [] }

/-- **C9**: with no advanced conditions and a keyword set, `build_where_clause`
produces exactly one OR-group of wildcarded-`LIKE` predicates — one per known
column, each casting the column to text, all bound to the same `%keyword%`
parameter — and under `LIKE` semantics a row satisfies the group iff some
column's text contains the keyword as a substring. -/
theorem global_keyword_builds_or_group
    (st : BrowseState) (all_columns : List String) (rowVal : String → String)
    (hadv : st.advanced_conditions = [])
    (hcf : st.column_filters = [])
    (htab : st.current_table ∈ FASTENER_TABLES)
    (hkw : pyStrip st.filter_text ≠ "")
    (hwf : wildcardFree (pyStrip st.filter_text).toList) :
    build_where_clause st all_columns =
      .ok (keywordGroupFrag all_columns,
           all_columns.map (fun _ => "%" ++ pyStrip st.filter_text ++ "%")) ∧
    (evalKeywordGroup all_columns rowVal (pyStrip st.filter_text) = true ↔
      ∃ c ∈ all_columns,
        containsSub (pyStrip st.filter_text).toList (rowVal c).toList = true) := by
  constructor
  · have hsing : String.intercalate " AND " [keywordGroupFrag all_columns] =
        keywordGroupFrag all_columns := by
      simp [String.intercalate, String.intercalate.go]
    simp [build_where_clause, hadv, hcf, htab, hkw, hsing]
  · simp only [evalKeywordGroup, List.any_eq_true]
    constructor
    · rintro ⟨c, hc, h⟩
      refine ⟨c, hc, ?_⟩
      rw [← likeMatch_wrapped_eq_containsSub _ hwf]
      exact h
    · rintro ⟨c, hc, h⟩
      refine ⟨c, hc, ?_⟩
      rw [likeMatch_wrapped_eq_containsSub _ hwf]
      exact h

/-- Witness for C9 at a concrete state: keyword `M16` over two columns. -/
theorem global_keyword_builds_or_group_witness :
    build_where_clause kwDemoState ["Name", "PartName"] =
      .ok (keywordGroupFrag ["Name", "PartName"],
           ["Name", "PartName"].map (fun _ => "%" ++ pyStrip kwDemoState.filter_text ++ "%")) ∧
    (evalKeywordGroup ["Name", "PartName"] (fun _ => "ASTM16x")
        (pyStrip kwDemoState.filter_text) = true ↔
      ∃ c ∈ ["Name", "PartName"],
        containsSub (pyStrip kwDemoState.filter_text).toList
          ((fun _ : String => "ASTM16x") c).toList = true) :=
  global_keyword_builds_or_group kwDemoState ["Name", "PartName"] (fun _ => "ASTM16x")
    rfl rfl (by decide) (by decide) (by decide)

/-- A 30-row result set for the pagination scenario. -/
def demo30 : List Row := (List.range 30).map (fun i => [("ID", Val.i i)])

/-- **C4**: pagination is offset/limit based with `offset = page * 25`: the
next button is enabled exactly when `offset + rows_returned < total_count`
and the prev button exactly when `page > 0`; on a 30-row table, page 0 shows
rows 1–25 with next enabled and prev disabled, page 1 shows rows 26–30 with
next disabled and prev enabled; and `change_page` never moves the page index
outside `[0, ceil(N/P) - 1]`. -/
theorem pagination_bounds :
    (∀ (matching : List Row) (page : Nat),
      (populate_table_view matching page).rows =
        (matching.drop (page * rows_per_page)).take rows_per_page ∧
      ((populate_table_view matching page).nextEnabled = true ↔
        page * rows_per_page + (populate_table_view matching page).rows.length <
          matching.length) ∧
      ((populate_table_view matching page).prevEnabled = true ↔ 0 < page)) ∧
    populate_table_view demo30 0 =
      { rows := demo30.take 25, startRow := 1, endRow := 25,
        prevEnabled := false, nextEnabled := true } ∧
    populate_table_view demo30 1 =
      { rows := demo30.drop 25, startRow := 26, endRow := 30,
        prevEnabled := true, nextEnabled := false } ∧
    (∀ (page total : Nat) (direction : Int),
      change_page page total direction = page ∨
        change_page page total direction ≤
          (if 0 < total then (total - 1) / rows_per_page else 0)) ∧
    (∀ total : Nat, 0 < total →
      (total - 1) / rows_per_page = (total + rows_per_page - 1) / rows_per_page - 1) := by
  refine ⟨?_, ?_, ?_, ?_, ?_⟩
  · intro m p
    refine ⟨rfl, ?_, ?_⟩
    · simp only [populate_table_view, pageRows, decide_eq_true_eq]
      omega
    · simp [populate_table_view]
  · rfl
  · rfl
  · intro p t d
    unfold change_page
    by_cases ht : t > 0
    · simp only [if_pos ht]
      have hcast : ((t : Int) - 1) / ((rows_per_page : Nat) : Int) =
          (((t - 1) / rows_per_page : Nat) : Int) := by
        rw [Int.natCast_div]
        congr 1
        omega
      rw [hcast]
      by_cases h : 0 ≤ (p : Int) + d ∧
          (p : Int) + d ≤ (((t - 1) / rows_per_page : Nat) : Int)
      · rw [if_pos h]
        right
        omega
      · rw [if_neg h]
        left
        rfl
    · simp only [if_neg ht]
      by_cases h : 0 ≤ (p : Int) + d ∧ (p : Int) + d ≤ (0 : Int)
      · rw [if_pos h]
        right
        omega
      · rw [if_neg h]
        left
        rfl
  · intro t ht
    show (t - 1) / 25 = (t + 25 - 1) / 25 - 1
    omega

/-- Witness for C4's page-bound conjunct at a concrete input. -/
theorem pagination_bounds_witness :
    change_page 0 30 1 = 0 ∨
      change_page 0 30 1 ≤ (if 0 < 30 then (30 - 1) / rows_per_page else 0) :=
  pagination_bounds.2.2.2.1 0 30 1

/-- When no statement in the range of an insert sequence is scheduled to
fail, the sequence inserts one row per item, in order. -/
lemma runInserts_ok (mk : α → Row) (items : List α) (idx : Nat) (failAt : Option Nat)
    (h : ∀ j, idx ≤ j → j < idx + items.length → failAt ≠ some j) :
    runInserts mk items idx failAt = .ok (items.map mk, idx + items.length) := by
  induction items generalizing idx with
  | nil => simp [runInserts]
  | cons a as ih =>
    have h0 : failAt ≠ some idx := h idx le_rfl (by simp)
    rw [runInserts, if_neg h0,
      ih (idx + 1) (fun j hj1 hj2 => h j (by omega) (by simpa [Nat.add_assoc] using by omega))]
    simp [Nat.add_assoc, Nat.add_comm, Nat.add_left_comm]

/-- When the failing statement index lies inside the sequence's range, the
sequence aborts with an error. -/
lemma runInserts_err (mk : α → Row) (items : List α) (idx k : Nat)
    (h1 : idx ≤ k) (h2 : k < idx + items.length) :
    runInserts mk items idx (some k) = .error "insert failed" := by
  induction items generalizing idx with
  | nil => simp at h2; omega
  | cons a as ih =>
    by_cases hk : k = idx
    · rw [runInserts, if_pos (by rw [hk])]
    · rw [runInserts, if_neg (by simp; omega)]
      rw [ih (idx + 1) (by omega) (by simp at h2 ⊢; omega)]

/-- **C1**: the creation flow is atomic.  If any of its statements — the root
insert (index 0) or any dependent `SetBolts`/`SetOfBolts` insert — fails, the
transaction rolls back and the database is exactly as before (zero rows of
the attempt persist in the root and in every dependent table); on success the
root row is stored and every dependent row inserted references the identifier
generated by the root insert. -/
theorem createEntity_atomic (db : DB) (b : BoltData) (newId : Val) (failAt : Option Nat) :
    (∀ k, failAt = some k → k < createStmtCount b → createEntity db b newId failAt = db) ∧
    (failAt = none →
      createEntity db b newId failAt =
        { db with
          boltDefinition := db.boltDefinition ++ [rootInsertRow newId b]
          setBolts := db.setBolts ++ b.lengths.map (setBoltsInsertRow newId)
          setOfBolts := db.setOfBolts ++ b.assembly_sets.map (setOfBoltsInsertRow newId) } ∧
      (∀ r ∈ b.lengths.map (setBoltsInsertRow newId),
        List.lookup "BoltDefId" r = some newId) ∧
      (∀ r ∈ b.assembly_sets.map (setOfBoltsInsertRow newId),
        List.lookup "BoltDefId" r = some newId)) := by
  constructor
  · rintro k rfl hk
    unfold createStmtCount at hk
    have hbody : createBody db b newId (some k) = .error "insert failed" := by
      unfold createBody
      by_cases h0 : k = 0
      · subst h0
        rw [if_pos rfl]
      · rw [if_neg (by simp [h0])]
        by_cases h1 : k < 1 + b.lengths.length
        · simp only [runInserts_err (setBoltsInsertRow newId) b.lengths 1 k
            (by omega) (by omega)]
        · simp only [runInserts_ok (setBoltsInsertRow newId) b.lengths 1 (some k)
            (fun j hj1 hj2 => by simp only [ne_eq, Option.some.injEq]; omega),
            runInserts_err (setOfBoltsInsertRow newId) b.assembly_sets
              (1 + b.lengths.length) k (by omega) (by omega)]
    simp [createEntity, runTransaction, hbody]
  · rintro rfl
    have hbody : createBody db b newId none =
        .ok { db with
              boltDefinition := db.boltDefinition ++ [rootInsertRow newId b]
              setBolts := db.setBolts ++ b.lengths.map (setBoltsInsertRow newId)
              setOfBolts := db.setOfBolts ++ b.assembly_sets.map (setOfBoltsInsertRow newId) } := by
      unfold createBody
      rw [if_neg (by simp)]
      simp only [runInserts_ok (setBoltsInsertRow newId) b.lengths 1 none
          (fun j _ _ => by simp),
        runInserts_ok (setOfBoltsInsertRow newId) b.assembly_sets
          (1 + b.lengths.length) none (fun j _ _ => by simp)]
    refine ⟨by simp [createEntity, runTransaction, hbody], ?_, ?_⟩
    · intro r hr
      obtain ⟨e, _, rfl⟩ := List.mem_map.1 hr
      simp [setBoltsInsertRow, List.lookup]
    · intro r hr
      obtain ⟨s, _, rfl⟩ := List.mem_map.1 hr
      simp [setOfBoltsInsertRow, List.lookup]

/-- A one-length, one-set bolt for concrete instantiations. -/
def demoBolt : BoltData :=
  { name := "M16x50"
    standard_id := .i 3
    diameter := .q 16
    strength_class_id := .i 2
    author_id := .i 1
    head_diameter := .q 24
    head_height := .q 10
    lengths := [(.q 50, .q (3 / 20), "M16x50A")]
    assembly_sets := [.i 4] }

/-- The empty database. -/
def emptyDB : DB :=
  { boltDefinition := [], setBolts := [], setOfBolts := [], autoLength := []
    sets := [], standard := [], strengthClass := [], authors := [] }

/-- Witness for C1: a failure injected at the first dependent insert
(statement 1) leaves the empty database unchanged, and the failure-free run
commits the three rows. -/
theorem createEntity_atomic_witness :
    createEntity emptyDB demoBolt (.i 7) (some 1) = emptyDB ∧
    createEntity emptyDB demoBolt (.i 7) none =
      { emptyDB with
        boltDefinition := [rootInsertRow (.i 7) demoBolt]
        setBolts := [setBoltsInsertRow (.i 7) (.q 50, .q (3 / 20), "M16x50A")]
        setOfBolts := [setOfBoltsInsertRow (.i 7) (.i 4)] } := by
  constructor
  · exact (createEntity_atomic emptyDB demoBolt (.i 7) (some 1)).1 1 rfl (by decide)
  · have h := ((createEntity_atomic emptyDB demoBolt (.i 7) none).2 rfl).1
    simpa [demoBolt, emptyDB] using h

/-- The shape of a well-formed generated rule list continuing from lower grip
bound `m`: the first rule starts at `m`, every rule's max grip is
`length - nut_height - 3`, every rule is emitted only when its max grip
exceeds its min grip, and each subsequent rule starts at the previous max
grip plus 0.1. -/
def chainedFrom (nut_height : ℚ) : ℚ → List ALRule → Prop
  | _, [] => True
  | m, (mn, mx, l) :: rs =>
    mn = m ∧ mx = l - nut_height - 3 ∧ mn < mx ∧ chainedFrom nut_height (mx + 1 / 10) rs

/-- Loop invariant of `generate_auto_length_rules`: starting from a state in
which `prev_max_grip` is assigned exactly when some rule has been inserted,
the loop never reads the variable unassigned (it returns `some _`, never the
`UnboundLocalError` marker `none`), and the rules it appends continue the
chain from 0 (no rules yet) or from the previous max grip plus 0.1. -/
lemma genLoop_spec (nh : ℚ) (ls : List ℚ) :
    ∀ (rules : List ALRule) (prev : Option ℚ),
    (prev = none ↔ rules = []) →
    ∃ suffix, genLoop nh ls rules prev = some (rules ++ suffix) ∧
      chainedFrom nh (match prev with | none => 0 | some p => p + 1 / 10) suffix := by
  induction ls with
  | nil =>
    intro rules prev _
    exact ⟨[], by simp [genLoop], trivial⟩
  | cons l ls ih =>
    intro rules prev hinv
    cases prev with
    | none =>
      have hrules : rules = [] := hinv.1 rfl
      subst hrules
      by_cases hcmp : (0 : ℚ) < l - nh - 3
      · obtain ⟨suffix, hgen, hchain⟩ :=
          ih [(0, l - nh - 3, l)] (some (l - nh - 3)) (by simp)
        refine ⟨(0, l - nh - 3, l) :: suffix, ?_, rfl, rfl, hcmp, hchain⟩
        simpa [genLoop, hcmp] using hgen
      · obtain ⟨suffix, hgen, hchain⟩ := ih [] none (by simp)
        exact ⟨suffix, by simpa [genLoop, hcmp] using hgen, hchain⟩
    | some p =>
      have hru : rules ≠ [] := fun h => by simpa using hinv.2 h
      have hlen : ¬ rules.length = 0 := by simpa [List.length_eq_zero] using hru
      have hstep : genLoop nh (l :: ls) rules (some p) =
          if p + 1 / 10 < l - nh - 3 then
            genLoop nh ls (rules ++ [(p + 1 / 10, l - nh - 3, l)]) (some (l - nh - 3))
          else genLoop nh ls rules (some p) := by
        simp [genLoop, hlen]
      by_cases hcmp : p + 1 / 10 < l - nh - 3
      · obtain ⟨suffix, hgen, hchain⟩ :=
          ih (rules ++ [(p + 1 / 10, l - nh - 3, l)]) (some (l - nh - 3)) (by simp)
        refine ⟨(p + 1 / 10, l - nh - 3, l) :: suffix, ?_, rfl, rfl, hcmp, hchain⟩
        rw [hstep, if_pos hcmp]
        simpa using hgen
      · obtain ⟨suffix, hgen, hchain⟩ := ih rules (some p) hinv
        refine ⟨suffix, ?_, hchain⟩
        rw [hstep, if_neg hcmp]
        exact hgen

/-- **C10**: in every single invocation of the auto-length generation, for
every non-empty length list and nut height, the carried `prev_max_grip`
variable is never read unassigned (the run completes instead of raising
`UnboundLocalError`), and the generated rules have `min_grip = 0` for the
first rule, `min_grip = previous max_grip + 0.1` thereafter, each emitted
only when `max_grip = length - nut_height - 3.0` exceeds its `min_grip`. -/
theorem auto_length_rules_defined_and_chained
    (lengths0 : List ℚ) (nut_input : ℚ) (hne : lengths0 ≠ []) :
    ∃ rules, generate_auto_length_rules lengths0 nut_input = some rules ∧
      chainedFrom (if nut_input = 0 then 13 else nut_input) 0 rules := by
  obtain ⟨suffix, hgen, hchain⟩ :=
    genLoop_spec (if nut_input = 0 then 13 else nut_input)
      (lengths0.mergeSort (fun a b => decide (a ≤ b))) [] none (by simp)
  exact ⟨suffix, by simpa [generate_auto_length_rules] using hgen, hchain⟩

/-- Witness for C10: three lengths and a 10 mm nut. -/
theorem auto_length_rules_defined_and_chained_witness :
    ∃ rules, generate_auto_length_rules [40, 50, 60] 10 = some rules ∧
      chainedFrom (if (10 : ℚ) = 0 then 13 else 10) 0 rules :=
  auto_length_rules_defined_and_chained [40, 50, 60] 10 (by simp)

/-- **C5**: unit conversion is applied exactly when the column is in
`UNIT_CONVERT`, the value is numeric, and inch display is on; the converted
value is the stored millimetre value divided by 25.4, rounded to 3 decimals;
the populate and CSV-export paths share the identical rule; and no write path
(creation root insert, dependent inserts, or clone copies) stores anything
but the unconverted stored values. -/
theorem unit_conversion_display_only :
    (∀ (inches : Bool) (cols : List String) (j : Nat) (v : Val),
      displayCellExport inches cols j v = displayCellPopulate inches cols j v) ∧
    (∀ (cols : List String) (j : Nat) (x : ℚ),
      j < cols.length → cols.getD j "" ∈ UNIT_CONVERT →
      displayCellPopulate true cols j (.q x) = .q (round3 (x / MM_TO_INCH)) ∧
      ∀ n : Int, displayCellPopulate true cols j (.i n) =
        .q (round3 ((n : ℚ) / MM_TO_INCH))) ∧
    (∀ (inches : Bool) (cols : List String) (j : Nat) (x : ℚ),
      ¬(inches = true ∧ j < cols.length ∧ cols.getD j "" ∈ UNIT_CONVERT) →
      displayCellPopulate inches cols j (.q x) = .q x) ∧
    (∀ (inches : Bool) (cols : List String) (j : Nat) (s : String),
      displayCellPopulate inches cols j (.s s) = .s s) ∧
    (∀ (newId : Val) (e : Val × Val × String),
      List.lookup "Length" (setBoltsInsertRow newId e) = some e.1 ∧
      List.lookup "Weight" (setBoltsInsertRow newId e) = some e.2.1) ∧
    (∀ (newId : Val) (b : BoltData),
      List.lookup "Diameter" (rootInsertRow newId b) = some b.diameter ∧
      List.lookup "HeadDiameter" (rootInsertRow newId b) = some b.head_diameter ∧
      List.lookup "HeadHeight" (rootInsertRow newId b) = some b.head_height) ∧
    (∀ (newId : Val) (r : Row),
      List.lookup "Length" (cloneSetBoltsRow newId r) =
        some ((List.lookup "Length" r).getD .null) ∧
      List.lookup "GripMin" (cloneAutoLengthRow newId r) =
        some ((List.lookup "GripMin" r).getD .null)) := by
  refine ⟨?_, ?_, ?_, ?_, ?_, ?_, ?_⟩
  · intro inches cols j v
    rfl
  · intro cols j x h1 h2
    constructor
    · simp only [displayCellPopulate]
      rw [if_pos ⟨trivial, h1, h2, rfl⟩]
      rfl
    · intro n
      simp only [displayCellPopulate]
      rw [if_pos ⟨trivial, h1, h2, rfl⟩]
      rfl
  · intro inches cols j x h
    simp only [displayCellPopulate]
    rw [if_neg (fun hc => h ⟨hc.1, hc.2.1, hc.2.2.1⟩)]
  · intro inches cols j s
    simp only [displayCellPopulate]
    rw [if_neg (fun hc => by simpa [isNumericVal] using hc.2.2.2)]
  · intro newId e
    exact ⟨by simp [setBoltsInsertRow, List.lookup],
           by simp [setBoltsInsertRow, List.lookup]⟩
  · intro newId b
    refine ⟨?_, ?_, ?_⟩ <;> simp [rootInsertRow, List.lookup]
  · intro newId r
    exact ⟨by simp [cloneSetBoltsRow, List.lookup],
           by simp [cloneAutoLengthRow, List.lookup]⟩

/-- Witness for C5: a stored 16 mm diameter displays as 16/25.4 rounded to
three decimals (0.63), and is not converted when inch display is off. -/
theorem unit_conversion_display_only_witness :
    displayCellPopulate true ["Diameter"] 0 (.q 16) = .q (round3 (16 / MM_TO_INCH)) ∧
    displayCellPopulate false ["Diameter"] 0 (.q 16) = .q 16 := by
  constructor
  · exact ((unit_conversion_display_only.2.1 ["Diameter"] 0 16 (by decide) (by decide)).1)
  · exact unit_conversion_display_only.2.2.1 false ["Diameter"] 0 16 (by simp)

/-- **C7 counterexample**: `check_orphaned_records` does not execute one count
query per foreign-key relationship declared in `BOLT_SCHEMA`: the catalog
declares nine relationships but the audit hard-codes six checks, and the
declared relationship `BoltDefinition.AuthorId → Authors` has no
corresponding check. -/
theorem orphan_check_misses_declared_rels :
    ("BoltDefinition", "AuthorId", "Authors") ∈ declaredFKRels ∧
    (∀ chk ∈ orphanChecks,
      (chk.2.1, chk.2.2.1, chk.2.2.2) ≠ ("BoltDefinition", "AuthorId", "Authors")) ∧
    orphanChecks.length = 6 ∧ declaredFKRels.length = 9 := by
  decide

/-- **C7 amended**: `check_orphaned_records` executes one count query for each
of six hard-coded foreign-key relationships — each of which is declared in
`BOLT_SCHEMA`, though three declared relationships are not covered — counting
dependent rows whose foreign-key value has no matching row in the referenced
table, and aggregates a total orphan count equal to the sum of the
per-relationship counts. -/
theorem orphan_check_counts_and_total (db : DB) :
    (check_orphaned_records db).1 =
      orphanChecks.map
        (fun chk => (chk.1, orphanCount db chk.2.1 chk.2.2.1 chk.2.2.2)) ∧
    (check_orphaned_records db).2 =
      (orphanChecks.map
        (fun chk => orphanCount db chk.2.1 chk.2.2.1 chk.2.2.2)).sum ∧
    (∀ chk ∈ orphanChecks, (chk.2.1, chk.2.2.1, chk.2.2.2) ∈ declaredFKRels) := by
  refine ⟨?_, ?_, by decide⟩
  · simp [check_orphaned_records, orphanChecks]
  · simp only [check_orphaned_records, orphanChecks, List.foldl_cons, List.foldl_nil,
      List.map_cons, List.map_nil, List.sum_cons, List.sum_nil]
    omega

/-- A database holding one bolt definition with zero dependent lengths and
zero assembly-set references. -/
def c8db : DB :=
  { emptyDB with boltDefinition := [[("ID", Val.i 1), ("Name", Val.s "M20")]] }

/-- **C8 counterexample**: `perform_bolt_clone` checks none of the
dependent-entity preconditions in memory: cloning a source bolt with zero
dependent lengths and zero assembly-set references is not rejected with a
validation failure — the transaction body succeeds and six statements are
issued. -/
theorem clone_skips_dependent_preconditions :
    rowsReferencing c8db.setBolts (Val.i 1) = [] ∧
    rowsReferencing c8db.setOfBolts (Val.i 1) = [] ∧
    cloneIssuedStmts c8db (Val.i 1) = 6 ∧
    cloneBody c8db ["ID", "Name"] (Val.i 1) "M20-copy" (Val.i 2) =
      .ok { c8db with
            boltDefinition :=
              c8db.boltDefinition ++ [[("ID", Val.i 2), ("Name", Val.s "M20-copy")]] } :=
  ⟨by decide, by decide, by decide, rfl⟩

/-- **C8 amended**: for createEntity the checks non-empty name, at least one
length and at least one assembly set are performed in memory before any SQL
statement of the creation flow: a violating entity makes the flow issue zero
statements and leave the database untouched, while a valid one assembles the
full `BoltData`.  For cloneEntity only the non-empty-name dialog guard runs
before statements are issued; once a source row exists the clone proceeds
(six statements) with no dependent-entity precondition checks. -/
theorem create_validates_in_memory_clone_does_not :
    (∀ (w : WizardInputs) (db : DB) (newId : Val),
      (w.name_text = "" ∨ w.lengths_rows = [] ∨ w.selected_sets = []) →
      createFlow w db newId = (db, 0)) ∧
    (∀ w : WizardInputs,
      w.name_text ≠ "" → w.lengths_rows ≠ [] → w.selected_sets ≠ [] →
      create_bolt w = some
        { name := w.name_text, standard_id := w.standard_data,
          diameter := w.diameter_value, strength_class_id := w.strength_data,
          author_id := w.author_data, head_diameter := w.head_diameter_value,
          head_height := w.head_height_value, lengths := w.lengths_rows,
          assembly_sets := w.selected_sets }) ∧
    (∀ (ok : Bool) (nm : String),
      clone_name_guard ok nm = true ↔ ok = true ∧ nm ≠ "") ∧
    (∀ (db : DB) (src : Val) (source_data : Row),
      db.boltDefinition.find?
          (fun r => decide (List.lookup "ID" r = some src)) = some source_data →
      cloneIssuedStmts db src = 6) := by
  refine ⟨?_, ?_, ?_, ?_⟩
  · intro w db newId h
    rcases h with h | h | h <;> simp [createFlow, create_bolt, h]
  · intro w h1 h2 h3
    simp [create_bolt, h1, List.length_eq_zero, h2, h3]
  · intro ok nm
    simp [clone_name_guard]
  · intro db src source_data hfind
    unfold cloneIssuedStmts
    rw [hfind]

/-- Wizard inputs violating every createEntity precondition. -/
def badWizard : WizardInputs :=
  { name_text := "", standard_data := .i 1, diameter_value := .q 16,
    strength_data := .i 1, author_data := .i 1, head_diameter_value := .null,
    head_height_value := .null, lengths_rows := [], selected_sets := [] }

/-- Witness for the C8 amended theorem: an empty name makes the creation flow
issue zero statements, and a found clone source makes the clone issue six. -/
theorem create_validates_in_memory_clone_does_not_witness :
    createFlow badWizard emptyDB (.i 1) = (emptyDB, 0) ∧
    cloneIssuedStmts c8db (Val.i 1) = 6 := by
  constructor
  · exact create_validates_in_memory_clone_does_not.1 badWizard emptyDB (.i 1) (Or.inl rfl)
  · exact create_validates_in_memory_clone_does_not.2.2.2 c8db (Val.i 1)
      [("ID", Val.i 1), ("Name", Val.s "M20")] (by decide)

/-- Looking a key up in an association list built by tagging each element of a
key list with a function of itself. -/
lemma lookup_map_self (g : String → Val) (l : List String) (c : String) :
    List.lookup c (l.map (fun x => (x, g x))) = if c ∈ l then some (g c) else none := by
  induction l with
  | nil => simp
  | cons a as ih =>
    by_cases hca : c = a
    · subst hca
      simp [List.lookup]
    · have hba : (c == a) = false := beq_eq_false_iff_ne.mpr hca
      simp [List.lookup, hba, ih, hca]

/-- Skipping a cons cell whose key differs from the looked-up key. -/
lemma lookup_cons_ne (k a : String) (v : Val) (es : List (String × Val)) (h : a ≠ k) :
    List.lookup a ((k, v) :: es) = List.lookup a es := by
  have hba : (a == k) = false := beq_eq_false_iff_ne.mpr h
  simp [List.lookup, hba]

/-- A `SetBolts` row carrying a non-key column the clone's fixed column list
does not mention. -/
def c2srcRow : Row :=
  [("BoltDefId", Val.i 1), ("Length", Val.i 50), ("Weight", Val.i 2),
   ("PartName", Val.s "B50"), ("Comment", Val.s "extra")]

/-- A database with one bolt definition and one dependent `SetBolts` row that
has an extra non-key column. -/
def c2db : DB :=
  { emptyDB with
    boltDefinition := [[("ID", Val.i 1), ("Name", Val.s "M16"), ("StandardId", Val.i 3)]]
    setBolts := [c2srcRow] }

/-- **C2 counterexample**: the dependent-row copy of `perform_bolt_clone` is
not a schema-generic structural copy: it writes only the fixed column list
`(BoltDefId, Length, Weight, PartName)`, so a source `SetBolts` row carrying
an extra non-key column `Comment` is cloned without it — the cloned row
differs from the structural copy the spec describes, whose non-key fields are
all unchanged. -/
theorem clone_drops_unlisted_dependent_columns :
    (perform_bolt_clone c2db ["ID", "Name", "StandardId"] (Val.i 1) "M16-copy"
        (Val.i 9)).setBolts =
      [c2srcRow, cloneSetBoltsRow (Val.i 9) c2srcRow] ∧
    List.lookup "Comment" c2srcRow = some (Val.s "extra") ∧
    List.lookup "Comment" (cloneSetBoltsRow (Val.i 9) c2srcRow) = none ∧
    cloneSetBoltsRow (Val.i 9) c2srcRow ≠
      specStructuralCopyRow "BoltDefId" (Val.i 9) c2srcRow :=
  ⟨rfl, by decide, by decide, by decide⟩

/-- **C2 amended**: `perform_bolt_clone` produces a new root row identical to
the source in every live column except the identifier and the name, and
copies *all* dependent rows referencing the source identifier (no fixed
count) in `SetBolts`, `SetOfBolts` and `AutoLength`, re-keyed to the new
identifier — but each dependent copy goes through a per-table hard-coded
column list (`Length, Weight, PartName` / `SetId` /
`GripMin, GripMax, Length`), which it preserves, rather than a schema-generic
structural copy of every column. -/
theorem clone_copies_root_and_dependents
    (db : DB) (columns : List String) (src newId : Val) (new_name : String)
    (source_data : Row)
    (hfind : db.boltDefinition.find?
      (fun r => decide (List.lookup "ID" r = some src)) = some source_data)
    (hname : "Name" ∈ columns) :
    ∃ newRoot : Row,
      (perform_bolt_clone db columns src new_name newId =
        { db with
          boltDefinition := db.boltDefinition ++ [newRoot]
          setBolts := db.setBolts ++
            (rowsReferencing db.setBolts src).map (cloneSetBoltsRow newId)
          setOfBolts := db.setOfBolts ++
            (rowsReferencing db.setOfBolts src).map (cloneSetOfBoltsRow newId)
          autoLength := db.autoLength ++
            (rowsReferencing db.autoLength src).map (cloneAutoLengthRow newId) } ∧
      List.lookup "ID" newRoot = some newId ∧
      List.lookup "Name" newRoot = some (.s new_name) ∧
      (∀ c ∈ columns, c ≠ "ID" → c ≠ "Name" →
        List.lookup c newRoot = some ((List.lookup c source_data).getD .null))) ∧
    (∀ r ∈ rowsReferencing db.setBolts src,
      List.lookup "BoltDefId" (cloneSetBoltsRow newId r) = some newId ∧
      List.lookup "Length" (cloneSetBoltsRow newId r) =
        some ((List.lookup "Length" r).getD .null) ∧
      List.lookup "Weight" (cloneSetBoltsRow newId r) =
        some ((List.lookup "Weight" r).getD .null) ∧
      List.lookup "PartName" (cloneSetBoltsRow newId r) =
        some ((List.lookup "PartName" r).getD .null)) ∧
    (∀ r ∈ rowsReferencing db.setOfBolts src,
      List.lookup "BoltDefId" (cloneSetOfBoltsRow newId r) = some newId ∧
      List.lookup "SetId" (cloneSetOfBoltsRow newId r) =
        some ((List.lookup "SetId" r).getD .null)) ∧
    (∀ r ∈ rowsReferencing db.autoLength src,
      List.lookup "BoltDefId" (cloneAutoLengthRow newId r) = some newId ∧
      List.lookup "GripMin" (cloneAutoLengthRow newId r) =
        some ((List.lookup "GripMin" r).getD .null) ∧
      List.lookup "GripMax" (cloneAutoLengthRow newId r) =
        some ((List.lookup "GripMax" r).getD .null) ∧
      List.lookup "Length" (cloneAutoLengthRow newId r) =
        some ((List.lookup "Length" r).getD .null)) := by
  refine ⟨("ID", newId) :: (columns.filter (fun c => c ≠ "ID")).map
      (fun c => (c, if c = "Name" then .s new_name
                    else (List.lookup c source_data).getD .null)),
    ⟨?_, ?_, ?_, ?_⟩, ?_, ?_, ?_⟩
  · simp [perform_bolt_clone, cloneBody, runTransaction, hfind]
  · simp [List.lookup]
  · rw [lookup_cons_ne _ _ _ _ (by decide : "Name" ≠ "ID"), lookup_map_self]
    simp [List.mem_filter, hname]
  · intro c hc hcid hcname
    rw [lookup_cons_ne _ _ _ _ hcid, lookup_map_self]
    simp [List.mem_filter, hc, hcid, hcname]
  · intro r _
    refine ⟨?_, ?_, ?_, ?_⟩ <;> simp [cloneSetBoltsRow, List.lookup]
  · intro r _
    refine ⟨?_, ?_⟩ <;> simp [cloneSetOfBoltsRow, List.lookup]
  · intro r _
    refine ⟨?_, ?_, ?_, ?_⟩ <;> simp [cloneAutoLengthRow, List.lookup]

/-- Witness for the C2 amended theorem at a concrete database. -/
theorem clone_copies_root_and_dependents_witness :
    ∃ newRoot : Row,
      (perform_bolt_clone c8db ["ID", "Name"] (Val.i 1) "M20-copy" (Val.i 9) =
        { c8db with
          boltDefinition := c8db.boltDefinition ++ [newRoot]
          setBolts := c8db.setBolts ++
            (rowsReferencing c8db.setBolts (Val.i 1)).map (cloneSetBoltsRow (Val.i 9))
          setOfBolts := c8db.setOfBolts ++
            (rowsReferencing c8db.setOfBolts (Val.i 1)).map (cloneSetOfBoltsRow (Val.i 9))
          autoLength := c8db.autoLength ++
            (rowsReferencing c8db.autoLength (Val.i 1)).map (cloneAutoLengthRow (Val.i 9)) } ∧
      List.lookup "ID" newRoot = some (Val.i 9) ∧
      List.lookup "Name" newRoot = some (.s "M20-copy") ∧
      (∀ c ∈ ["ID", "Name"], c ≠ "ID" → c ≠ "Name" →
        List.lookup c newRoot =
          some ((List.lookup c [("ID", Val.i 1), ("Name", Val.s "M20")]).getD .null))) ∧
    (∀ r ∈ rowsReferencing c8db.setBolts (Val.i 1),
      List.lookup "BoltDefId" (cloneSetBoltsRow (Val.i 9) r) = some (Val.i 9) ∧
      List.lookup "Length" (cloneSetBoltsRow (Val.i 9) r) =
        some ((List.lookup "Length" r).getD .null) ∧
      List.lookup "Weight" (cloneSetBoltsRow (Val.i 9) r) =
        some ((List.lookup "Weight" r).getD .null) ∧
      List.lookup "PartName" (cloneSetBoltsRow (Val.i 9) r) =
        some ((List.lookup "PartName" r).getD .null)) ∧
    (∀ r ∈ rowsReferencing c8db.setOfBolts (Val.i 1),
      List.lookup "BoltDefId" (cloneSetOfBoltsRow (Val.i 9) r) = some (Val.i 9) ∧
      List.lookup "SetId" (cloneSetOfBoltsRow (Val.i 9) r) =
        some ((List.lookup "SetId" r).getD .null)) ∧
    (∀ r ∈ rowsReferencing c8db.autoLength (Val.i 1),
      List.lookup "BoltDefId" (cloneAutoLengthRow (Val.i 9) r) = some (Val.i 9) ∧
      List.lookup "GripMin" (cloneAutoLengthRow (Val.i 9) r) =
        some ((List.lookup "GripMin" r).getD .null) ∧
      List.lookup "GripMax" (cloneAutoLengthRow (Val.i 9) r) =
        some ((List.lookup "GripMax" r).getD .null) ∧
      List.lookup "Length" (cloneAutoLengthRow (Val.i 9) r) =
        some ((List.lookup "Length" r).getD .null)) :=
  clone_copies_root_and_dependents c8db ["ID", "Name"] (Val.i 1) (Val.i 9) "M20-copy"
    [("ID", Val.i 1), ("Name", Val.s "M20")] rfl (by decide)

/-- Witness for the C7 amended theorem: the aggregate equals the sum on the
empty database, and the first hard-coded check is a declared relationship. -/
theorem orphan_check_counts_and_total_witness :
    (check_orphaned_records emptyDB).2 =
      (orphanChecks.map
        (fun chk => orphanCount emptyDB chk.2.1 chk.2.2.1 chk.2.2.2)).sum ∧
    ("SetBolts", "BoltDefId", "BoltDefinition") ∈ declaredFKRels :=
  ⟨(orphan_check_counts_and_total emptyDB).2.1,
   (orphan_check_counts_and_total emptyDB).2.2
     ("SetBolts without BoltDefinition", "SetBolts", "BoltDefId", "BoltDefinition")
     (by decide)⟩
